import Mathlib

/-!
Shallow embedding of the whistler SSH gateway (src/whistler/server.py,
src/whistler/config.py, src/whistler/operator.py) for checking the
natural-language specification against the code.

Python strings are modelled as Lean `String`s, with the Python string
operations re-implemented over the underlying character lists so that
every definition is executable.  Python `Optional` values are `Option`,
Python dicts whose key sets matter are association lists kept in
insertion order, and Kubernetes API calls are reified as values
(`KubeAction`, `PatchCustomObjectCall`, ...) so that the effect a code
path asks of the cluster can be inspected.
-/

/-- Python `s.split(c)` for a single-character separator: splits on every
occurrence, keeping empty segments (`"".split('-') == [""]`). -/
def splitChar (c : Char) : List Char → List (List Char)
  | [] => [[]]
  | x :: xs =>
    let r := splitChar c xs
    if x = c then [] :: r
    else
      match r with
      | [] => [[x]]
      | h :: t => (x :: h) :: t

/-- Python `s.split(sep)` with a one-character separator, on `String`. -/
def pySplit (c : Char) (s : String) : List String :=
  (splitChar c s.data).map String.mk

/-- Python `sep.join(parts)`. -/
def pyJoin (sep : String) : List String → String
  | [] => ""
  | [x] => x
  | x :: xs => x ++ sep ++ pyJoin sep xs

/-- Python `s.split()` (no argument): split on whitespace runs, dropping
empty segments. -/
def pySplitWs (s : String) : List String :=
  ((splitChar ' ' s.data).map String.mk).filter (fun t => !t.isEmpty)

/-- Contiguous-sublist test on lists, used to model Python's substring
operator `needle in hay`. -/
def listContainsSub [DecidableEq α] (needle : List α) : List α → Bool
  | [] => needle.isEmpty
  | x :: xs => needle.isPrefixOf (x :: xs) || listContainsSub needle xs

/-- Python `needle in hay` on strings (contiguous substring test). -/
def pyIn (needle hay : String) : Bool := listContainsSub needle.data hay.data

/-- Python `s.startswith(pre)`. -/
def pyStartsWith (s pre : String) : Bool := pre.data.isPrefixOf s.data

/-- Python `s[n:]` (character-based slicing). -/
def pyDrop (n : Nat) (s : String) : String := String.mk (s.data.drop n)

/-- Truthiness of a Python `Optional[str]`: `None` and `""` are falsy. -/
def optStrTruthy : Option String → Bool
  | none => false
  | some s => !s.data.isEmpty

/-- First value for a key in an association list, modelling
`dict.get(key)` (Python dicts have unique keys; we read the first hit). -/
def assocGet (kvs : List (String × String)) (k : String) : Option String :=
  (kvs.find? (fun p => p.1 == k)).map Prod.snd

/-! ## Data model: cluster objects seen by config.py and operator.py -/

/-- One `volumeMounts` entry of a container (name and mountPath). -/
structure VolumeMount where
  name : String
  mountPath : String
deriving DecidableEq, Repr

/-- The parts of a Kubernetes pod read by `KubeConfigManager.get_user_instances`:
metadata.name, metadata.labels, status.phase, metadata.deletion_timestamp,
status.pod_ip and each container's volume mounts (in order). -/
structure PodObj where
  name : String
  labels : List (String × String)
  phase : String
  deletionTimestamp : Option String
  podIp : Option String
  containers : List (List VolumeMount)
deriving DecidableEq, Repr

/-- A WhistlerInstance custom resource as stored in the cluster:
metadata.name plus the spec fields read by config.py and operator.py
(`spec.get("templateRef")`, `spec.get("preemptible", False)`). -/
structure InstanceCR where
  name : String
  templateRef : Option String
  user : Option String
  preemptible : Option Bool
deriving DecidableEq, Repr

/-- The enriched instance record returned by
`KubeConfigManager.get_user_instances` (the `sshHost`/`sshPort` fields,
constantly `None` in the source, are omitted). -/
structure InstanceInfo where
  name : String
  template : Option String
  status : String
  podName : Option String
  namespc : String
  ip : Option String
  mounts : List VolumeMount
  preemptible : Bool
deriving DecidableEq, Repr

/-- The user namespace name `whistler-user-{username}`
(`KubeConfigManager._get_user_namespace`). -/
def get_user_namespace (username : String) : String :=
  "whistler-user-" ++ username

/-- The pod joined to an instance full name: the pods are first filtered by
the label selector `user={username}`, then indexed by their `instance`
label into a dict (later entries overriding earlier ones), and the dict is
read at the instance's full name.  Mirrors the `pod_map` comprehension in
`get_user_instances`. -/
def podMapGet (pods : List PodObj) (username full_name : String) : Option PodObj :=
  ((pods.filter (fun p => assocGet p.labels "user" == some username)).reverse).find?
    (fun p => assocGet p.labels "instance" == some full_name)

/-- One record of `get_user_instances`: display name strips the
`username-` prefix, status is `Stopped` without a pod, `Terminating` when
the pod carries a deletion timestamp, otherwise the pod phase; mounts are
the first container's mounts outside `/var/run/secrets`. -/
def mkInstanceInfo (username user_ns : String) (pods : List PodObj) (cr : InstanceCR) :
    InstanceInfo :=
  let full_name := cr.name
  let display_name :=
    if pyStartsWith full_name (username ++ "-") then pyDrop (username.length + 1) full_name
    else full_name
  let pod? := podMapGet pods username full_name
  let pod_status :=
    match pod? with
    | none => "Stopped"
    | some p => if p.deletionTimestamp.isSome then "Terminating" else p.phase
  let mounts :=
    match pod? with
    | some p =>
      match p.containers with
      | c :: _ => c.filter (fun m => !pyStartsWith m.mountPath "/var/run/secrets")
      | [] => []
    | none => []
  { name := display_name
    template := cr.templateRef
    status := pod_status
    podName := pod?.map (fun p => p.name)
    namespc := user_ns
    ip := pod?.bind (fun p => p.podIp)
    mounts := mounts
    preemptible := cr.preemptible.getD false }

/-- `KubeConfigManager.get_user_instances`: list the WhistlerInstance
resources of the user namespace and join each with its pod. -/
def get_user_instances (username : String) (crs : List InstanceCR) (pods : List PodObj) :
    List InstanceInfo :=
  crs.map (mkInstanceInfo username (get_user_namespace username) pods)

/-! ## Gateway authentication and handle parsing (server.py SSHServer) -/

/-- A user record from users.yaml: name and stored public keys (each a full
key line such as "ssh-ed25519 AAAA... comment"). -/
structure UserRec where
  name : String
  publicKeys : List String
deriving DecidableEq, Repr

/-- Membership test in the user directory (`KubeConfigManager.user_exists`). -/
def user_exists (users : List UserRec) (u : String) : Bool :=
  users.any (fun r => r.name == u)

/-- The stored keys of a user (`KubeConfigManager.get_user_public_keys`);
empty when the user is missing. -/
def get_user_public_keys (users : List UserRec) (u : String) : List String :=
  match users.find? (fun r => r.name == u) with
  | some r => r.publicKeys
  | none => []

/-- The slice of a template record that the gateway reads when parsing a
handle and when creating an ephemeral instance: the display short name and
the cluster full name, as produced by `get_user_templates`. -/
structure TemplateInfo where
  name : String
  fullName : String
deriving DecidableEq, Repr

/-- Session targets of the gateway ("tui", "template", "instance"). -/
inductive TargetType
  | tui
  | template
  | instanceMode
deriving DecidableEq, Repr

/-- The per-connection fields that the authentication callbacks of
`SSHServer` write: username, target type/name, and the optional
`active_instance_name` attribute used later to authorize forwards. -/
structure AuthResult where
  username : String
  targetType : TargetType
  targetName : Option String
  activeInstanceName : Option String
deriving DecidableEq, Repr

/-- The target-dispatch block shared verbatim by `validate_password` and
both branches of `validate_public_key`: split the handle on "-", one
segment means the menu TUI, a suffix that names a visible template means
template mode, anything else means instance mode.  Only the
`validate_public_key` copies additionally store the suffix in
`active_instance_name` (`seedActive`). -/
def determine_target (real_user handle : String) (templates : List TemplateInfo)
    (seedActive : Bool) : AuthResult :=
  if (pySplit '-' handle).length == 1 then
    { username := real_user, targetType := .tui, targetName := none,
      activeInstanceName := none }
  else if templates.any
      (fun t => t.name == pyJoin "-" ((pySplit '-' handle).drop 1)) then
    { username := real_user, targetType := .template,
      targetName := some (pyJoin "-" ((pySplit '-' handle).drop 1)),
      activeInstanceName := none }
  else
    { username := real_user, targetType := .instanceMode,
      targetName := some (pyJoin "-" ((pySplit '-' handle).drop 1)),
      activeInstanceName :=
        if seedActive then some (pyJoin "-" ((pySplit '-' handle).drop 1)) else none }

/-- `SSHServer.validate_public_key`.  `devMode` is the
`WHISTLER_AUTH_ALLOW_ANY` bypass; `exportedKey` is the decoded
`key.export_public_key()` line; `templates` is
`get_user_templates(real_user)`.  The base64 body is field 1 of the
whitespace-split exported key (a malformed export raises IndexError in the
source, which fails authentication; modelled as `none`).  A stored key
matches when the body occurs as a substring of the stored key line
(Python `key_data in allowed`). -/
def validate_public_key (devMode : Bool) (users : List UserRec)
    (templates : List TemplateInfo) (handle : String) (exportedKey : String) :
    Option AuthResult :=
  let parts := pySplit '-' handle
  let real_user := parts.headD ""
  if devMode then
    some (determine_target real_user handle templates true)
  else if !user_exists users real_user then
    none
  else
    match (pySplitWs exportedKey).get? 1 with
    | none => none
    | some key_data =>
      if (get_user_public_keys users real_user).any (fun k => pyIn key_data k) then
        some (determine_target real_user handle templates true)
      else
        none

/-- `SSHServer.validate_password`: only available in dev mode; parses the
handle exactly like the key path but never sets `active_instance_name`. -/
def validate_password (devMode : Bool) (templates : List TemplateInfo)
    (handle : String) : Option AuthResult :=
  if !devMode then none
  else
    let parts := pySplit '-' handle
    some (determine_target (parts.headD "") handle templates false)

/-! ## Forward-channel policy (server.py SSHServer.connection_requested) -/

/-- Outcome of a direct-tcpip channel-open request: a denial raised as
`ChannelOpenError` with `OPEN_ADMINISTRATIVELY_PROHIBITED` or
`OPEN_CONNECT_FAILED` (which refuses only this channel and leaves the
session running), or an opened tunnel into the named pod. -/
inductive OpenResult
  | adminProhibited (reason : String)
  | connectFailed (reason : String)
  | tunnel (podName : String) (destPort : Nat)
deriving DecidableEq, Repr

/-- The per-connection server state consulted by `connection_requested`:
the authenticated username and the `active_instance_name` attribute
(absent before any session binds an instance; read through `getattr`
with default `None`). -/
structure ServerConnState where
  username : String
  activeInstanceName : Option String
deriving DecidableEq, Repr

/-- `SSHServer.connection_requested`: deny non-localhost destinations with
administratively-prohibited, deny when no active instance is bound, look
the active instance up in `get_user_instances` and tunnel only when it has
a pod name and status Running, otherwise deny with connect-failed. -/
def connection_requested (st : ServerConnState) (crs : List InstanceCR)
    (pods : List PodObj) (dest_host : String) (dest_port : Nat) : OpenResult :=
  if dest_host != "localhost" && dest_host != "127.0.0.1" then
    .adminProhibited "Forwarding is only allowed to localhost (the container)"
  else if !optStrTruthy st.activeInstanceName then
    .adminProhibited "No active container instance found for forwarding"
  else
    let instance_name := st.activeInstanceName.getD ""
    let instances := get_user_instances st.username crs pods
    match instances.find? (fun i => i.name == instance_name) with
    | some inst =>
      if optStrTruthy inst.podName && inst.status == "Running" then
        .tunnel (inst.podName.getD "") dest_port
      else
        .connectFailed ("Container " ++ instance_name ++ " is not reachable")
    | none => .connectFailed ("Container " ++ instance_name ++ " is not reachable")

/-! ## Window-resize coalescing (server.py WhistlerSession) -/

/-- The three session fields driving resize coalescing:
`_pending_size`, `_last_processed_size` and whether `_resize_timer` holds
a live timer handle. -/
structure ResizeState where
  pendingSize : Option (Nat × Nat)
  lastProcessedSize : Option (Nat × Nat)
  timerActive : Bool
deriving DecidableEq, Repr

/-- Session state at construction time: no pending size, nothing
processed, no timer. -/
def initResizeState : ResizeState :=
  { pendingSize := none, lastProcessedSize := none, timerActive := false }

/-- `WhistlerSession._process_resize`: post a Resize event for the pending
size (when one is set) and remember it as last processed.  The second
component counts posted resize applications (0 or 1). -/
def process_resize (s : ResizeState) : ResizeState × Nat :=
  match s.pendingSize with
  | some _ => ({ s with lastProcessedSize := s.pendingSize }, 1)
  | none => (s, 0)

/-- `WhistlerSession.terminal_size_changed`, TUI branch (`self._app` set):
record the pending size; on the leading edge (no live timer) process it
immediately and start the 100 ms cooldown timer. -/
def terminal_size_changed_tui (s : ResizeState) (w h : Nat) : ResizeState × Nat :=
  let s := { s with pendingSize := some (w, h) }
  if !s.timerActive then
    let (s', n) := process_resize s
    ({ s' with timerActive := true }, n)
  else
    (s, 0)

/-- `WhistlerSession._resize_cooldown_expired`: at the trailing edge,
process the pending size when it differs from the last processed one and
restart the timer; otherwise go idle. -/
def resize_cooldown_expired (s : ResizeState) : ResizeState × Nat :=
  if s.pendingSize != s.lastProcessedSize then
    let (s', n) := process_resize s
    ({ s' with timerActive := true }, n)
  else
    ({ s with timerActive := false }, 0)

/-- How the session applies resizes: through the TUI driver
(`self._app` bound) or through the PTY master fd (`self._master_fd`). -/
inductive SessionBinding
  | tuiBound
  | ptyBound
deriving DecidableEq, Repr

/-- `WhistlerSession.terminal_size_changed` dispatch: TUI-bound sessions
run the coalescing logic; PTY-bound sessions issue the TIOCSWINSZ ioctl on
the master fd immediately on every event, with no coalescing state. -/
def terminal_size_changed (b : SessionBinding) (s : ResizeState) (w h : Nat) :
    ResizeState × Nat :=
  match b with
  | .tuiBound => terminal_size_changed_tui s w h
  | .ptyBound => (s, 1)

/-- Deliver a burst of resize events, summing the resize applications. -/
def runResizeEvents (b : SessionBinding) (s : ResizeState) :
    List (Nat × Nat) → ResizeState × Nat
  | [] => (s, 0)
  | (w, h) :: rest =>
    let (s', n) := terminal_size_changed b s w h
    let (s'', m) := runResizeEvents b s' rest
    (s'', n + m)

/-- Total applications for a burst that fits inside one 100 ms cooldown
window: all events are delivered before the timer expires, then (for the
TUI, which is the only binding owning a timer) the single expiry runs. -/
def burstApplications (b : SessionBinding) (events : List (Nat × Nat)) : Nat :=
  let (s, n) := runResizeEvents b initResizeState events
  match b with
  | .tuiBound => n + (resize_cooldown_expired s).2
  | .ptyBound => n

/-! ## Ephemeral instances and the reconciler nudge (server.py WhistlerSession) -/

/-- One hexadecimal digit, lower case. -/
def hexDigit (n : Nat) : Char :=
  if n < 10 then Char.ofNat ('0'.toNat + n) else Char.ofNat ('a'.toNat + (n - 10))

/-- `secrets.token_hex(4)`: four random bytes rendered as 8 lower-case hex
characters; the randomness is abstracted into the `seed`. -/
def token_hex_4 (seed : Nat) : String :=
  String.mk (((List.range 8).map (fun i => hexDigit (seed / 16 ^ (7 - i) % 16))))

/-- The arguments of one `config_manager.add_instance` call. -/
structure AddInstanceCall where
  username : String
  templateRef : String
  instanceName : String
  preemptible : Bool
deriving DecidableEq, Repr

/-- The creation step of `WhistlerSession._create_and_connect_ephemeral`:
mark the session ephemeral, mint the instance short name
`targetName ++ "-" ++ token_hex(4)`, resolve the template's full name
(falling back to the raw target name), and call `add_instance`.  The PTY
branch passes `preemptible=True`; the non-PTY branch calls
`add_instance(self.username, template_ref, instance_name)` and therefore
takes the signature default `preemptible=False`.  Returns
(is_ephemeral, the call made). -/
def create_ephemeral_call (username targetName : String)
    (templates : List TemplateInfo) (seed : Nat) (hasPty : Bool) :
    Bool × AddInstanceCall :=
  let hex_id := token_hex_4 seed
  let instance_name := targetName ++ "-" ++ hex_id
  let template_ref :=
    match templates.find? (fun t => t.name == targetName) with
    | some t => t.fullName
    | none => targetName
  if hasPty then
    (true, { username := username, templateRef := template_ref,
             instanceName := instance_name, preemptible := true })
  else
    (true, { username := username, templateRef := template_ref,
             instanceName := instance_name, preemptible := false })

/-- The arguments of a `patch_namespaced_custom_object` call as issued by
the session coordinator. -/
structure PatchCustomObjectCall where
  group : String
  version : String
  namespc : String
  plural : String
  objName : String
  annotationsPatch : List (String × String)
deriving DecidableEq, Repr

/-- The reconciler nudge issued by `WhistlerSession._connect_to_instance`
when the pod is absent or not Running: patch the annotation
`whistler.io/last-connect` with the current unix time onto the
WhistlerInstance named `username ++ "-" ++ targetName`, addressed in
`self.config_manager.namespace` (the system namespace). -/
def nudge_patch (systemNamespace username targetName nowStr : String) :
    PatchCustomObjectCall :=
  { group := "whistler.io"
    version := "v1"
    namespc := systemNamespace
    plural := "whistlerinstances"
    objName := username ++ "-" ++ targetName
    annotationsPatch := [("whistler.io/last-connect", nowStr)] }

/-- One poll of `WhistlerSession._wait_for_pod`: the instance is ready
when its status is Running and it has a (truthy) pod name. -/
def podReady (inst? : Option InstanceInfo) : Option String :=
  match inst? with
  | some inst =>
    if inst.status == "Running" && optStrTruthy inst.podName then inst.podName
    else none
  | none => none

/-- `WhistlerSession._wait_for_pod` with its 60-second overall deadline:
the loop body runs while `loop.time() - start < 60` and sleeps 0.5 s per
iteration, so the instance state is sampled at ticks 0, 0.5 s, ..., i.e.
at most 120 times; `instancesAt` gives the `get_user_instances` snapshot
at tick `i`.  Returns the pod name, or `none` when the deadline passes. -/
def wait_for_pod (instancesAt : Nat → List InstanceInfo) (instanceName : String) :
    Option String :=
  go 0
where
  go (i : Nat) : Option String :=
    if _h : i < 120 then
      match podReady ((instancesAt i).find? (fun inst => inst.name == instanceName)) with
      | some p => some p
      | none => go (i + 1)
    else
      none
  termination_by 120 - i

/-! ## Reconciler (operator.py) -/

/-- The slice of a WhistlerTemplate spec read by `ensure_pod`: image,
resources dict and nodeSelector.  The resources dict is kept as an
association list so that Python dict truthiness (`if resources:`) and key
presence are faithful. -/
structure TemplateSpecData where
  image : Option String
  resources : List (String × String)
  nodeSelector : List (String × String)
deriving DecidableEq, Repr

/-- The resource requests/limits constructed by `ensure_pod`: cpu and
memory are mirrored into requests and limits, gpu goes only to
`limits["nvidia.com/gpu"]`; an empty (falsy) resources dict produces no
requirements at all. -/
def resourceReqs (resources : List (String × String)) :
    List (String × String) × List (String × String) :=
  if resources.isEmpty then ([], [])
  else
    let cpu := assocGet resources "cpu"
    let memory := assocGet resources "memory"
    let gpu := assocGet resources "gpu"
    let requests :=
      (match cpu with | some v => [("cpu", v)] | none => []) ++
      (match memory with | some v => [("memory", v)] | none => [])
    let limits :=
      (match cpu with | some v => [("cpu", v)] | none => []) ++
      (match memory with | some v => [("memory", v)] | none => []) ++
      (match gpu with | some v => [("nvidia.com/gpu", v)] | none => [])
    (requests, limits)

/-- The pod body built by `ensure_pod` (the fields the spec talks about;
`kopf.adopt` is recorded as the `ownedByInstance` parent link). -/
structure PodBody where
  name : String
  labels : List (String × String)
  containerName : String
  image : String
  command : List String
  requests : List (String × String)
  limits : List (String × String)
  volumeMounts : List VolumeMount
  volumes : List (String × String)
  nodeSelector : List (String × String)
  hostname : String
  subdomain : String
  priorityClassName : Option String
  ownedByInstance : Bool
deriving DecidableEq, Repr

/-- The pod body `ensure_pod` constructs for instance CR `name` owned by
`user`: pod name is the CR name, labels are app=whistler-instance,
instance=name, user=user, the container runs `sleep 3600` on the template
image (default ubuntu:latest), the per-user PVC is mounted at /data, the
hostname is the CR name with the `user-` prefix stripped, and preemptible
instances get the whistler-preemptible priority class. -/
def mk_pod_body (user name : String) (preemptible : Bool)
    (tspec : TemplateSpecData) (pvc_name : String) : PodBody :=
  let image := tspec.image.getD "ubuntu:latest"
  let (requests, limits) := resourceReqs tspec.resources
  let hostname :=
    if pyStartsWith name (user ++ "-") then pyDrop (user.length + 1) name else name
  { name := name
    labels := [("app", "whistler-instance"), ("instance", name), ("user", user)]
    containerName := "main"
    image := image
    command := ["sleep", "3600"]
    requests := requests
    limits := limits
    volumeMounts := [{ name := "data", mountPath := "/data" }]
    volumes := [("data", pvc_name)]
    nodeSelector := tspec.nodeSelector
    hostname := hostname
    subdomain := "whistler"
    priorityClassName := if preemptible then some "whistler-preemptible" else none
    ownedByInstance := true }

/-- A reconciliation failure: kopf.TemporaryError (retry after a delay in
seconds) or kopf.PermanentError. -/
inductive ReconcileError
  | temporary (msg : String) (delaySec : Nat)
  | permanent (msg : String)
deriving DecidableEq, Repr

/-- A Kubernetes write reified as a value. -/
inductive KubeAction
  | createNamespace (name : String) (labels : List (String × String))
  | createNetworkPolicy (namespc name : String) (podSelector : List (String × String))
      (policyTypes : List String) (ingressRules : List (List (String × String)))
  | createPVC (namespc name : String) (labels : List (String × String))
      (accessModes : List String) (storageRequest : String)
  | createPod (namespc : String) (pod : PodBody)
  | createInstanceCR (namespc name : String) (templateRef user : String)
      (preemptible : Bool)
deriving DecidableEq, Repr

/-- Is the action a namespace creation? -/
def KubeAction.isCreateNamespace : KubeAction → Bool
  | .createNamespace _ _ => true
  | _ => false

/-- Is the action a NetworkPolicy creation? -/
def KubeAction.isCreateNetworkPolicy : KubeAction → Bool
  | .createNetworkPolicy _ _ _ _ _ => true
  | _ => false

/-- `ensure_pvc` in operator.py: accept a pre-existing claim, otherwise
create `whistler-data-{user}` with labels app=whistler,user=user, access
mode ReadWriteOnce and a 10Gi request (a non-404 read error raises
PermanentError; reads are assumed to succeed here). -/
def ensure_pvc_actions (user namespc : String) (pvcExists : Bool) : List KubeAction :=
  if pvcExists then []
  else
    [.createPVC namespc ("whistler-data-" ++ user) [("app", "whistler"), ("user", user)]
      ["ReadWriteOnce"] "10Gi"]

/-- `ensure_pod` in operator.py, with the cluster reads supplied as
arguments: the referenced template (in the instance's own namespace;
`none` models the 404), whether the per-user PVC already exists, and
whether pod creation would hit 409 because a pod of that name exists
(`existingTerminating` tells whether that pod carries a deletion
timestamp).  Returns the writes issued, or the kopf error raised. -/
def ensure_pod (cr : InstanceCR) (namespc : String)
    (template? : Option TemplateSpecData) (pvcExists : Bool)
    (podExists : Bool) (existingTerminating : Bool) :
    Except ReconcileError (List KubeAction) :=
  let user := (cr.user).getD ""
  let preemptible := cr.preemptible.getD false
  match template? with
  | none =>
    .error (.temporary ("Template " ++ (cr.templateRef).getD "" ++ " not found") 10)
  | some tspec =>
    let pvcActs := ensure_pvc_actions user namespc pvcExists
    let pod := mk_pod_body user cr.name preemptible tspec ("whistler-data-" ++ user)
    if podExists then
      if existingTerminating then
        .error (.temporary "Pod is terminating" 2)
      else
        .ok pvcActs
    else
      .ok (pvcActs ++ [.createPod namespc pod])

/-- `reconcile_fn`: the handler registered for WhistlerInstance create,
update and resume events; it only calls `ensure_pod`. -/
def reconcile_fn (cr : InstanceCR) (namespc : String)
    (template? : Option TemplateSpecData) (pvcExists : Bool)
    (podExists : Bool) (existingTerminating : Bool) :
    Except ReconcileError (List KubeAction) :=
  ensure_pod cr namespc template? pvcExists podExists existingTerminating

/-! ## Namespace and isolation policy (config.py KubeConfigManager) -/

/-- A namespace object: name and labels. -/
structure NamespaceObj where
  name : String
  labels : List (String × String)
deriving DecidableEq, Repr

/-- A NetworkPolicy object: holding namespace, name, pod selector,
policyTypes and the list of ingress rules (empty means deny-all
ingress). -/
structure NetPolicyObj where
  namespc : String
  name : String
  podSelector : List (String × String)
  policyTypes : List String
  ingressRules : List (List (String × String))
deriving DecidableEq, Repr

/-- The cluster objects touched by `_ensure_user_namespace`. -/
structure Cluster where
  namespaces : List NamespaceObj
  policies : List NetPolicyObj
deriving DecidableEq, Repr

/-- The namespace body created by `_ensure_user_namespace`: labelled
whistler.io/user=username, whistler.io/managed=true. -/
def userNamespaceBody (username : String) : NamespaceObj :=
  { name := get_user_namespace username,
    labels := [("whistler.io/user", username), ("whistler.io/managed", "true")] }

/-- The NetworkPolicy body created by `_ensure_user_namespace`: empty pod
selector (select all pods), policyTypes Ingress, no ingress rules. -/
def isolatePolicyBody (username : String) : NetPolicyObj :=
  { namespc := get_user_namespace username, name := "isolate-user-pods",
    podSelector := [], policyTypes := ["Ingress"], ingressRules := [] }

/-- First half of `_ensure_user_namespace`: read the namespace, create it
on 404. -/
def ensure_ns_step (c : Cluster) (username : String) : Cluster :=
  if c.namespaces.any (fun n => n.name == get_user_namespace username) then c
  else { c with namespaces := c.namespaces ++ [userNamespaceBody username] }

/-- Second half of `_ensure_user_namespace`: read the isolate-user-pods
policy in the user namespace, create it on 404. -/
def ensure_policy_step (c : Cluster) (username : String) : Cluster :=
  if c.policies.any (fun p =>
      p.namespc == get_user_namespace username && p.name == "isolate-user-pods") then c
  else { c with policies := c.policies ++ [isolatePolicyBody username] }

/-- `KubeConfigManager._ensure_user_namespace`: ensure the namespace, then
ensure the NetworkPolicy in it; return the updated cluster and the user
namespace name. -/
def ensure_user_namespace (c : Cluster) (username : String) : Cluster × String :=
  (ensure_policy_step (ensure_ns_step c username) username, get_user_namespace username)

/-- A NetworkPolicy denies all ingress when Ingress is among its policy
types and it admits no ingress rule. -/
def deniesAllIngress (p : NetPolicyObj) : Prop :=
  "Ingress" ∈ p.policyTypes ∧ p.ingressRules = []

/-- `KubeConfigManager.add_instance`: ensure the user namespace (and with
it the isolation policy), then create the WhistlerInstance
`{username}-{instance_name}` in it with spec templateRef, user and
preemptible.  Returns the updated cluster and the creation action. -/
def add_instance (c : Cluster) (username template_name instance_name : String)
    (preemptible : Bool) : Cluster × KubeAction :=
  ((ensure_user_namespace c username).1,
   .createInstanceCR (ensure_user_namespace c username).2
     (username ++ "-" ++ instance_name) template_name username preemptible)

/-! ## Concrete fixtures used by witnesses and counterexamples -/

/-- A pod for instance alice-dev1 that is being deleted while still in
phase Running. -/
def exAlicePod : PodObj :=
  { name := "alice-dev1"
    labels := [("app", "whistler-instance"), ("instance", "alice-dev1"), ("user", "alice")]
    phase := "Running"
    deletionTimestamp := some "2026-10-12T00:00:00Z"
    podIp := some "10.0.0.7"
    containers := [[{ name := "data", mountPath := "/data" },
                    { name := "kube-api-access",
                      mountPath := "/var/run/secrets/kubernetes.io/serviceaccount" }]] }

/-- The WhistlerInstance resource alice-dev1. -/
def exAliceCR : InstanceCR :=
  { name := "alice-dev1", templateRef := some "alice-small", user := some "alice",
    preemptible := some false }

/-- The listInstances record for alice-dev1 joined with `exAlicePod`. -/
def exAliceInfo : InstanceInfo :=
  mkInstanceInfo "alice" (get_user_namespace "alice") [exAlicePod] exAliceCR

/-- A Running pod for alice-dev1 without a deletion timestamp. -/
def exRunningPod : PodObj :=
  { exAlicePod with deletionTimestamp := none }

/-- A user directory with one user whose single stored key line carries
the base64 body AAAATESTBODY. -/
def exUsers : List UserRec :=
  [{ name := "alice", publicKeys := ["ssh-ed25519 AAAATESTBODY alice@laptop"] }]

/-- The exported public key the client presents. -/
def exKey : String := "ssh-ed25519 AAAATESTBODY"

/-- A template catalog containing the system template small. -/
def exTemplates : List TemplateInfo :=
  [{ name := "small", fullName := "small" }]

/-- A template spec as the reconciler reads it. -/
def exTemplateSpec : TemplateSpecData :=
  { image := some "ubuntu:22.04", resources := [("cpu", "500m"), ("memory", "512Mi")],
    nodeSelector := [] }

/-- An empty cluster (no namespaces, no policies). -/
def emptyCluster : Cluster := { namespaces := [], policies := [] }

/-- Does a reconciliation outcome contain any namespace or NetworkPolicy
creation? -/
def reconcileEnsuresIsolation (r : Except ReconcileError (List KubeAction)) : Bool :=
  match r with
  | .ok acts => acts.any (fun a => a.isCreateNamespace || a.isCreateNetworkPolicy)
  | .error _ => false

/-! ## Helper lemmas -/

/-- Appending after an owner prefix always passes the startswith check. -/
theorem pyStartsWith_owner_append (u s : String) :
    pyStartsWith (u ++ "-" ++ s) (u ++ "-") = true := by
  simp [pyStartsWith, String.data_append, List.isPrefixOf_iff_prefix]

/-- Dropping the owner prefix and the dash recovers the short name. -/
theorem pyDrop_owner_append (u s : String) :
    pyDrop (u.length + 1) (u ++ "-" ++ s) = s := by
  have h : (u ++ "-" ++ s).data = (u.data ++ ['-']) ++ s.data := by
    simp [String.data_append]
  have hl : (u.data ++ ['-']).length = u.length + 1 := by
    show (u.data ++ ['-']).length = u.data.length + 1
    simp
  unfold pyDrop
  rw [h, ← hl, List.drop_left]

/-- Truthiness of an optional string, spelled out. -/
theorem optStrTruthy_iff (o : Option String) :
    optStrTruthy o = true ↔ ∃ s, o = some s ∧ s ≠ "" := by
  cases o with
  | none => simp [optStrTruthy]
  | some s =>
    have hempty : s = "" ↔ s.data = [] :=
      ⟨fun h => by simp [h], fun h => String.ext (by simpa using h)⟩
    simp [optStrTruthy, List.isEmpty_iff, hempty]

/-- The joined pod is absent exactly when no pod carrying the user label
and the instance label exists. -/
theorem podMapGet_eq_none_iff (pods : List PodObj) (username full_name : String) :
    podMapGet pods username full_name = none ↔
      ¬ ∃ p ∈ pods, assocGet p.labels "user" = some username ∧
        assocGet p.labels "instance" = some full_name := by
  simp only [podMapGet, List.find?_eq_none, List.mem_reverse, List.mem_filter]
  simp only [beq_iff_eq]
  constructor
  · rintro h ⟨p, hp, hu, hi⟩
    exact absurd hi (by simpa using h p ⟨hp, hu⟩)
  · intro h p hp
    simp only [not_exists, not_and] at h
    intro hi
    exact h p hp.1 hp.2 (by simpa using hi)

/-- C8: every record returned by listInstances reports status Terminating
whenever its joined pod carries a deletion timestamp regardless of the
pod's phase, Stopped when no pod labeled with that instance (and the
user) exists, and the pod's phase otherwise. -/
theorem instance_status_reporting (username : String) (crs : List InstanceCR)
    (pods : List PodObj) (info : InstanceInfo)
    (h : info ∈ get_user_instances username crs pods) :
    ∃ cr ∈ crs,
      info = mkInstanceInfo username (get_user_namespace username) pods cr ∧
      (podMapGet pods username cr.name = none ↔
        ¬ ∃ p ∈ pods, assocGet p.labels "user" = some username ∧
          assocGet p.labels "instance" = some cr.name) ∧
      (podMapGet pods username cr.name = none → info.status = "Stopped") ∧
      (∀ p, podMapGet pods username cr.name = some p →
        (p.deletionTimestamp.isSome = true → info.status = "Terminating") ∧
        (p.deletionTimestamp = none → info.status = p.phase)) := by
  simp only [get_user_instances, List.mem_map] at h
  obtain ⟨cr, hcr, hinfo⟩ := h
  refine ⟨cr, hcr, hinfo.symm, podMapGet_eq_none_iff _ _ _, ?_, ?_⟩
  · intro hnone
    rw [← hinfo]
    simp [mkInstanceInfo, hnone]
  · intro p hp
    constructor
    · intro hd
      rw [← hinfo]
      simp [mkInstanceInfo, hp, hd]
    · intro hd
      rw [← hinfo]
      simp [mkInstanceInfo, hp, hd]

/-- C8 witness: at the concrete fixture (pod in phase Running but carrying
a deletion timestamp) the hypotheses of `instance_status_reporting` hold
and the reported status is Terminating. -/
theorem instance_status_reporting_witness :
    (exAliceInfo ∈ get_user_instances "alice" [exAliceCR] [exAlicePod]) ∧
    (∃ cr ∈ [exAliceCR],
      exAliceInfo = mkInstanceInfo "alice" (get_user_namespace "alice") [exAlicePod] cr ∧
      (podMapGet [exAlicePod] "alice" cr.name = none ↔
        ¬ ∃ p ∈ [exAlicePod], assocGet p.labels "user" = some "alice" ∧
          assocGet p.labels "instance" = some cr.name) ∧
      (podMapGet [exAlicePod] "alice" cr.name = none → exAliceInfo.status = "Stopped") ∧
      (∀ p, podMapGet [exAlicePod] "alice" cr.name = some p →
        (p.deletionTimestamp.isSome = true → exAliceInfo.status = "Terminating") ∧
        (p.deletionTimestamp = none → exAliceInfo.status = p.phase))) ∧
    exAliceInfo.status = "Terminating" :=
  ⟨by decide, instance_status_reporting "alice" [exAliceCR] [exAlicePod] exAliceInfo (by decide),
   by decide⟩

/-- C1: a direct-TCP forward channel opens successfully iff the destination
host is localhost or 127.0.0.1, the connection has a bound (non-empty)
active instance name, and the instance found under that name has a known
pod name and status Running; a failing host check is denied with an
administratively-prohibited error and a failing instance check with a
connect-failed error, each denial being a per-channel result that leaves
the session state untouched. -/
theorem forward_open_policy (st : ServerConnState) (crs : List InstanceCR)
    (pods : List PodObj) (host : String) (port : Nat) :
    ((∃ p, connection_requested st crs pods host port = .tunnel p port) ↔
      ((host = "localhost" ∨ host = "127.0.0.1") ∧
       (∃ n, st.activeInstanceName = some n ∧ n ≠ "") ∧
       (∃ inst, (get_user_instances st.username crs pods).find?
            (fun i => i.name == st.activeInstanceName.getD "") = some inst ∧
          (∃ pn, inst.podName = some pn ∧ pn ≠ "") ∧ inst.status = "Running"))) ∧
    (¬(host = "localhost" ∨ host = "127.0.0.1") →
      connection_requested st crs pods host port =
        .adminProhibited "Forwarding is only allowed to localhost (the container)") ∧
    (∀ n, (host = "localhost" ∨ host = "127.0.0.1") →
      st.activeInstanceName = some n → n ≠ "" →
      ¬(∃ inst, (get_user_instances st.username crs pods).find?
            (fun i => i.name == n) = some inst ∧
          (∃ pn, inst.podName = some pn ∧ pn ≠ "") ∧ inst.status = "Running") →
      connection_requested st crs pods host port =
        .connectFailed ("Container " ++ n ++ " is not reachable")) := by
  by_cases hhost : host = "localhost" ∨ host = "127.0.0.1"
  case neg =>
    push_neg at hhost
    have heq : connection_requested st crs pods host port =
        .adminProhibited "Forwarding is only allowed to localhost (the container)" := by
      unfold connection_requested
      have hcond : (host != "localhost" && host != "127.0.0.1") = true := by
        simp [bne_iff_ne, hhost.1, hhost.2]
      simp [hcond]
    refine ⟨?_, fun _ => heq, fun n h _ _ _ => absurd h (by tauto)⟩
    rw [heq]
    constructor
    · rintro ⟨p, hp⟩
      exact absurd hp (by simp)
    · rintro ⟨h, _⟩
      exact absurd h (by tauto)
  case pos =>
    have hcond : (host != "localhost" && host != "127.0.0.1") = false := by
      rcases hhost with h | h <;> simp [h]
    by_cases hact : optStrTruthy st.activeInstanceName = true
    case neg =>
      have hactF : optStrTruthy st.activeInstanceName = false := by
        simpa using hact
      have hnoname : ¬ ∃ n, st.activeInstanceName = some n ∧ n ≠ "" := fun hex => by
        simp [(optStrTruthy_iff _).mpr hex] at hactF
      have heq : connection_requested st crs pods host port =
          .adminProhibited "No active container instance found for forwarding" := by
        unfold connection_requested
        simp [hcond, hactF]
      refine ⟨?_, fun h => absurd hhost h, fun n _ hn hne _ => absurd ⟨n, hn, hne⟩ hnoname⟩
      rw [heq]
      constructor
      · rintro ⟨p, hp⟩
        exact absurd hp (by simp)
      · rintro ⟨_, hex, _⟩
        exact absurd hex hnoname
    case pos =>
      obtain ⟨n, hn, hne⟩ := (optStrTruthy_iff _).mp hact
      cases hfind : (get_user_instances st.username crs pods).find?
          (fun i => i.name == n) with
      | none =>
        have heq : connection_requested st crs pods host port =
            .connectFailed ("Container " ++ n ++ " is not reachable") := by
          unfold connection_requested
          simp [hcond, hact, hn, hfind]
          exact (optStrTruthy_iff _).mpr ⟨n, rfl, hne⟩
        refine ⟨?_, fun h => absurd hhost h, ?_⟩
        · rw [heq]
          constructor
          · rintro ⟨p, hp⟩
            exact absurd hp (by simp)
          · rintro ⟨_, _, inst, hinst, _⟩
            simp only [hn, Option.getD_some] at hinst
            rw [hfind] at hinst
            exact absurd hinst (by simp)
        · intro m _ hm _ _
          rw [hn] at hm
          injection hm with hm
          subst hm
          exact heq
      | some inst =>
        by_cases hready : (optStrTruthy inst.podName && inst.status == "Running") = true
        case pos =>
          obtain ⟨h1, h2⟩ := Bool.and_eq_true .. |>.mp hready
          have hpn := (optStrTruthy_iff _).mp h1
          have hrun : inst.status = "Running" := by simpa using h2
          have heq : connection_requested st crs pods host port =
              .tunnel (inst.podName.getD "") port := by
            unfold connection_requested
            simp [hcond, hact, hn, hfind, hready]
            exact (optStrTruthy_iff _).mpr ⟨n, rfl, hne⟩
          refine ⟨?_, fun h => absurd hhost h, ?_⟩
          · constructor
            · intro _
              refine ⟨hhost, ⟨n, hn, hne⟩, inst, ?_, hpn, hrun⟩
              simp only [hn, Option.getD_some]
              exact hfind
            · intro _
              exact ⟨inst.podName.getD "", heq⟩
          · intro m _ hm _ hnot
            rw [hn] at hm
            injection hm with hm
            subst hm
            exact absurd ⟨inst, hfind, hpn, hrun⟩ hnot
        case neg =>
          have hreadyF : (optStrTruthy inst.podName && inst.status == "Running") = false := by
            simpa using hready
          have heq : connection_requested st crs pods host port =
              .connectFailed ("Container " ++ n ++ " is not reachable") := by
            unfold connection_requested
            simp [hcond, hact, hn, hfind, hreadyF]
            exact (optStrTruthy_iff _).mpr ⟨n, rfl, hne⟩
          refine ⟨?_, fun h => absurd hhost h, ?_⟩
          · rw [heq]
            constructor
            · rintro ⟨p, hp⟩
              exact absurd hp (by simp)
            · rintro ⟨_, _, inst', hinst', hpn', hrun'⟩
              simp only [hn, Option.getD_some] at hinst'
              rw [hfind] at hinst'
              injection hinst' with hinst'
              subst hinst'
              exact absurd (Bool.and_eq_true .. |>.mpr
                ⟨(optStrTruthy_iff _).mpr hpn', by simp [hrun']⟩) hready
          · intro m _ hm _ _
            rw [hn] at hm
            injection hm with hm
            subst hm
            exact heq

/-- C1 witness: with instance dev1 bound and its pod Running, a forward to
example.com:80 is refused with administratively-prohibited while a forward
to localhost:8080 opens a tunnel. -/
theorem forward_open_policy_witness :
    connection_requested { username := "alice", activeInstanceName := some "dev1" }
        [exAliceCR] [exRunningPod] "example.com" 80 =
      .adminProhibited "Forwarding is only allowed to localhost (the container)" ∧
    (∃ p, connection_requested { username := "alice", activeInstanceName := some "dev1" }
        [exAliceCR] [exRunningPod] "localhost" 8080 = .tunnel p 8080) :=
  ⟨(forward_open_policy { username := "alice", activeInstanceName := some "dev1" }
      [exAliceCR] [exRunningPod] "example.com" 80).2.1 (by decide),
   (forward_open_policy { username := "alice", activeInstanceName := some "dev1" }
      [exAliceCR] [exRunningPod] "localhost" 8080).1.mpr
     ⟨Or.inl rfl, ⟨"dev1", rfl, by decide⟩,
      ⟨mkInstanceInfo "alice" (get_user_namespace "alice") [exRunningPod] exAliceCR,
       by decide, ⟨"alice-dev1", by decide, by decide⟩, by decide⟩⟩⟩

/-- A successful non-bypass public-key validation returns exactly the
shared target-dispatch result with active-instance seeding on. -/
theorem validate_public_key_eq_dispatch (users : List UserRec)
    (templates : List TemplateInfo) (handle exportedKey : String) (r : AuthResult)
    (h : validate_public_key false users templates handle exportedKey = some r) :
    r = determine_target ((pySplit '-' handle).headD "") handle templates true := by
  unfold validate_public_key at h
  simp only [Bool.false_eq_true, if_false] at h
  split at h
  · exact absurd h (by simp)
  · split at h
    · exact absurd h (by simp)
    · split at h
      · injection h with h
        exact h.symm
      · exact absurd h (by simp)

/-- C5: authentication-time parsing splits the handle on "-", takes the
first segment as owner and rejoins the remainder with "-" as suffix; a
one-segment handle yields menu (tui) mode, a suffix equal to a visible
template's short name yields template mode, and any other suffix yields
instance mode with the active instance name pre-seeded to the suffix. -/
theorem handle_parse_dispatch (users : List UserRec) (templates : List TemplateInfo)
    (handle exportedKey : String) (r : AuthResult)
    (h : validate_public_key false users templates handle exportedKey = some r) :
    r.username = (pySplit '-' handle).headD "" ∧
    ((pySplit '-' handle).length = 1 →
      r.targetType = .tui ∧ r.targetName = none ∧ r.activeInstanceName = none) ∧
    (∀ suffix, (pySplit '-' handle).length ≠ 1 →
      suffix = pyJoin "-" ((pySplit '-' handle).drop 1) →
      ((∃ t ∈ templates, t.name = suffix) →
        r.targetType = .template ∧ r.targetName = some suffix ∧
        r.activeInstanceName = none) ∧
      (¬(∃ t ∈ templates, t.name = suffix) →
        r.targetType = .instanceMode ∧ r.targetName = some suffix ∧
        r.activeInstanceName = some suffix)) := by
  have hr := validate_public_key_eq_dispatch users templates handle exportedKey r h
  subst hr
  unfold determine_target
  by_cases hlen : (pySplit '-' handle).length = 1
  · have hlenb : ((pySplit '-' handle).length == 1) = true := by simpa using hlen
    rw [if_pos hlenb]
    exact ⟨rfl, fun _ => ⟨rfl, rfl, rfl⟩, fun suffix hne _ => absurd hlen hne⟩
  · have hlenb : ¬ (((pySplit '-' handle).length == 1) = true) := by simpa using hlen
    rw [if_neg hlenb]
    refine ⟨?_, fun h1 => absurd h1 hlen, ?_⟩
    · split
      · rfl
      · rfl
    · intro suffix _ hsuf
      subst hsuf
      split
      next htpl =>
        have hex : ∃ t ∈ templates, t.name = pyJoin "-" ((pySplit '-' handle).drop 1) := by
          simpa only [List.any_eq_true, beq_iff_eq] using htpl
        exact ⟨fun _ => ⟨rfl, rfl, rfl⟩, fun hc => absurd hex hc⟩
      next htpl =>
        have hex : ¬ ∃ t ∈ templates, t.name = pyJoin "-" ((pySplit '-' handle).drop 1) := by
          simpa only [List.any_eq_true, beq_iff_eq] using htpl
        exact ⟨fun hc => absurd hc hex, fun _ => ⟨rfl, rfl, rfl⟩⟩

/-- C5 witness: handle alice-dev1 with no template named dev1
authenticates into instance mode with the active instance name pre-seeded
to dev1. -/
theorem handle_parse_dispatch_witness :
    validate_public_key false exUsers exTemplates "alice-dev1" exKey =
      some (determine_target "alice" "alice-dev1" exTemplates true) ∧
    (determine_target "alice" "alice-dev1" exTemplates true).targetType = .instanceMode ∧
    (determine_target "alice" "alice-dev1" exTemplates true).activeInstanceName =
      some "dev1" := by
  have h : validate_public_key false exUsers exTemplates "alice-dev1" exKey =
      some (determine_target "alice" "alice-dev1" exTemplates true) := by decide
  have hd := handle_parse_dispatch exUsers exTemplates "alice-dev1" exKey
    (determine_target "alice" "alice-dev1" exTemplates true) h
  exact ⟨h, ((hd.2.2 "dev1" (by decide) (by decide)).2 (by decide)).1,
         ((hd.2.2 "dev1" (by decide) (by decide)).2 (by decide)).2.2⟩

/-- C7: in non-bypass mode, public-key authentication succeeds iff the
owner parsed from the handle exists in the user directory and the
presented key's base64 body (field 1 of the exported key line, so the
comment field is ignored) matches one of the owner's stored key lines,
where matching is occurrence of the body inside the stored line. -/
theorem pubkey_auth_iff (users : List UserRec) (templates : List TemplateInfo)
    (handle exportedKey : String) :
    (validate_public_key false users templates handle exportedKey).isSome = true ↔
      (user_exists users ((pySplit '-' handle).headD "") = true ∧
       ∃ body, (pySplitWs exportedKey).get? 1 = some body ∧
         ∃ k ∈ get_user_public_keys users ((pySplit '-' handle).headD ""),
           pyIn body k = true) := by
  unfold validate_public_key
  simp only [Bool.false_eq_true, if_false]
  by_cases hex : user_exists users ((pySplit '-' handle).headD "") = true
  · have hexF : (!user_exists users ((pySplit '-' handle).headD "")) = false := by
      rw [hex]
      rfl
    simp only [hexF, Bool.false_eq_true, if_false]
    cases hbody : (pySplitWs exportedKey).get? 1 with
    | none => simp [hex]
    | some body =>
      by_cases hmatch : (get_user_public_keys users ((pySplit '-' handle).headD "")).any
          (fun k => pyIn body k) = true
      · simp only [hmatch, if_true, Option.isSome_some, true_iff]
        refine ⟨hex, body, rfl, ?_⟩
        simpa only [List.any_eq_true] using hmatch
      · have hmatchF := Bool.not_eq_true _ |>.mp hmatch
        simp only [hmatchF, Bool.false_eq_true, if_false, Option.isSome_none]
        constructor
        · intro hf
          exact absurd hf (by simp)
        · rintro ⟨_, body', hbody', k, hk, hkin⟩
          injection hbody' with hbody'
          subst hbody'
          exact absurd (List.any_eq_true.mpr ⟨k, hk, hkin⟩) hmatch
  · have hexF : (!user_exists users ((pySplit '-' handle).headD "")) = true := by
      simpa using hex
    simp only [hexF, if_true, Option.isSome_none]
    constructor
    · intro hf
      exact absurd hf (by simp)
    · rintro ⟨h1, _⟩
      exact absurd h1 hex

/-- C7 witness: alice presenting the key whose body AAAATESTBODY occurs in
her stored key line authenticates; mallory (absent from the directory)
does not. -/
theorem pubkey_auth_iff_witness :
    (validate_public_key false exUsers exTemplates "alice" exKey).isSome = true ∧
    (validate_public_key false exUsers exTemplates "mallory" exKey).isSome = false :=
  ⟨(pubkey_auth_iff exUsers exTemplates "alice" exKey).mpr
    ⟨by decide, "AAAATESTBODY", by decide,
     "ssh-ed25519 AAAATESTBODY alice@laptop", by decide, by decide⟩,
   by
    have h := pubkey_auth_iff exUsers exTemplates "mallory" exKey
    revert h
    decide⟩

/-- A successful dev-mode password validation returns exactly the shared
target-dispatch result with active-instance seeding off. -/
theorem validate_password_eq_dispatch (templates : List TemplateInfo)
    (handle : String) (r : AuthResult)
    (h : validate_password true templates handle = some r) :
    r = determine_target ((pySplit '-' handle).headD "") handle templates false := by
  unfold validate_password at h
  simp only [Bool.not_true, Bool.false_eq_true, if_false] at h
  injection h with h
  exact h.symm

/-- The dispatch with seeding off never stores an active instance name. -/
theorem determine_target_no_seed (real_user handle : String)
    (templates : List TemplateInfo) :
    (determine_target real_user handle templates false).activeInstanceName = none := by
  unfold determine_target
  split
  · rfl
  · split
    · rfl
    · rfl

/-- C10: a connection authenticated through the dev-mode password path has
no active instance name even when the handle parses to instance mode, so
every direct-TCP forward opened before a shell binds an instance is
denied; the public-key path on the same handle, in contrast, pre-seeds the
active instance name with the parsed target name. -/
theorem password_auth_no_preseed (templates : List TemplateInfo) (handle : String)
    (r : AuthResult) (h : validate_password true templates handle = some r) :
    r.activeInstanceName = none ∧
    (∀ crs pods host port p q,
      connection_requested { username := r.username, activeInstanceName := r.activeInstanceName }
        crs pods host port ≠ .tunnel p q) ∧
    (r.targetType = .instanceMode →
      ∀ users exportedKey r',
        validate_public_key false users templates handle exportedKey = some r' →
        r'.activeInstanceName = r.targetName) := by
  have hr := validate_password_eq_dispatch templates handle r h
  have hnone : r.activeInstanceName = none := by
    rw [hr]
    exact determine_target_no_seed _ _ _
  refine ⟨hnone, ?_, ?_⟩
  · intro crs pods host port p q hc
    unfold connection_requested at hc
    rw [hnone] at hc
    split at hc
    · exact absurd hc (by simp)
    · simp only [optStrTruthy, Bool.not_false] at hc
      exact absurd hc (by simp)
  · intro hmode users exportedKey r' h'
    have hr' := validate_public_key_eq_dispatch users templates handle exportedKey r' h'
    by_cases hlen : ((pySplit '-' handle).length == 1) = true
    · rw [hr] at hmode
      unfold determine_target at hmode
      rw [if_pos hlen] at hmode
      exact absurd hmode (by simp)
    · by_cases hany : (templates.any
          (fun t => t.name == pyJoin "-" ((pySplit '-' handle).drop 1))) = true
      · rw [hr] at hmode
        unfold determine_target at hmode
        rw [if_neg hlen, if_pos hany] at hmode
        exact absurd hmode (by simp)
      · rw [hr, hr']
        unfold determine_target
        rw [if_neg hlen, if_neg hany, if_neg hlen, if_neg hany]
        rfl

/-- C10 witness: password-authenticating as alice-dev1 (instance mode)
leaves the active instance name unset, and a forward to localhost:8080 on
that connection cannot open a tunnel even though instance dev1 has a
Running pod. -/
theorem password_auth_no_preseed_witness :
    validate_password true exTemplates "alice-dev1" =
      some (determine_target "alice" "alice-dev1" exTemplates false) ∧
    (determine_target "alice" "alice-dev1" exTemplates false).activeInstanceName = none ∧
    connection_requested
      { username := (determine_target "alice" "alice-dev1" exTemplates false).username,
        activeInstanceName :=
          (determine_target "alice" "alice-dev1" exTemplates false).activeInstanceName }
      [exAliceCR] [exRunningPod] "localhost" 8080 ≠ .tunnel "alice-dev1" 8080 := by
  have h : validate_password true exTemplates "alice-dev1" =
      some (determine_target "alice" "alice-dev1" exTemplates false) := by decide
  have hp := password_auth_no_preseed exTemplates "alice-dev1"
    (determine_target "alice" "alice-dev1" exTemplates false) h
  exact ⟨h, hp.1, hp.2.1 [exAliceCR] [exRunningPod] "localhost" 8080 "alice-dev1" 8080⟩

/-- One trailing-edge expiry posts at most one resize. -/
theorem resize_cooldown_expired_le_one (s : ResizeState) :
    (resize_cooldown_expired s).2 ≤ 1 := by
  unfold resize_cooldown_expired
  split
  · cases hp : s.pendingSize <;> simp [process_resize, hp]
  · simp

/-- While the cooldown timer is live, TUI resize events post nothing and
the timer stays live. -/
theorem runResizeEvents_tui_timer_on (evs : List (Nat × Nat)) :
    ∀ s : ResizeState, s.timerActive = true →
      (runResizeEvents .tuiBound s evs).2 = 0 ∧
      (runResizeEvents .tuiBound s evs).1.timerActive = true := by
  induction evs with
  | nil => exact fun s hs => ⟨rfl, hs⟩
  | cons e rest ih =>
    intro s hs
    obtain ⟨w, h⟩ := e
    have hstep : terminal_size_changed .tuiBound s w h =
        ({ s with pendingSize := some (w, h) }, 0) := by
      unfold terminal_size_changed terminal_size_changed_tui
      simp [hs]
    have hrec := ih { s with pendingSize := some (w, h) } hs
    simp only [runResizeEvents, hstep]
    simpa using hrec

/-- PTY-bound sessions apply every resize event as an immediate ioctl. -/
theorem runResizeEvents_pty (evs : List (Nat × Nat)) :
    ∀ s : ResizeState, runResizeEvents .ptyBound s evs = (s, evs.length) := by
  induction evs with
  | nil => exact fun s => rfl
  | cons e rest ih =>
    intro s
    obtain ⟨w, h⟩ := e
    simp [runResizeEvents, terminal_size_changed, ih, Nat.add_comm]

/-- C9 counterexample: the claim covers PTY-bound sessions too, but a
PTY-bound burst of three resize events inside one 100 ms window performs
three ioctl applications, not at most two. -/
theorem resize_pty_burst_cex :
    ¬ (burstApplications .ptyBound [(80, 24), (81, 25), (82, 26)] ≤ 2) := by decide

/-- C9 amended: only TUI-bound sessions coalesce; for them a burst of N
resize events within 100 ms after the leading fire performs at most two
applications (the leading one and at most one trailing at expiry), while a
PTY-bound session applies every one of the N events immediately. -/
theorem resize_coalescing_amended (events : List (Nat × Nat)) :
    burstApplications .tuiBound events ≤ 2 ∧
    burstApplications .ptyBound events = events.length := by
  constructor
  · cases events with
    | nil => decide
    | cons e rest =>
      obtain ⟨w, h⟩ := e
      have hstep : terminal_size_changed .tuiBound initResizeState w h =
          ({ pendingSize := some (w, h), lastProcessedSize := some (w, h),
             timerActive := true }, 1) := rfl
      have hrest := runResizeEvents_tui_timer_on rest
        { pendingSize := some (w, h), lastProcessedSize := some (w, h),
          timerActive := true } rfl
      have hexp := resize_cooldown_expired_le_one
        (runResizeEvents .tuiBound
          { pendingSize := some (w, h), lastProcessedSize := some (w, h),
            timerActive := true } rest).1
      have h1 := hrest.1
      unfold burstApplications
      simp only [runResizeEvents, hstep]
      omega
  · unfold burstApplications
    rw [runResizeEvents_pty]

/-- C2 counterexample: a WhistlerInstance create event reconciles
successfully (PVC plus pod) without ensuring any namespace or
NetworkPolicy; the reconciliation handler issues no such write. -/
theorem reconcile_no_isolation_cex :
    reconcile_fn exAliceCR "whistler-user-alice" (some exTemplateSpec) false false false =
      .ok [.createPVC "whistler-user-alice" "whistler-data-alice"
             [("app", "whistler"), ("user", "alice")] ["ReadWriteOnce"] "10Gi",
           .createPod "whistler-user-alice"
             (mk_pod_body "alice" "alice-dev1" false exTemplateSpec "whistler-data-alice")] ∧
    reconcileEnsuresIsolation
      (reconcile_fn exAliceCR "whistler-user-alice" (some exTemplateSpec)
        false false false) = false := by
  constructor
  · rfl
  · rfl

/-- C2 amended: it is instance creation through the InstanceStore
(`add_instance`, via `_ensure_user_namespace`), not the reconciliation
handler, that ensures the `whistler-user-{owner}` namespace with labels
whistler.io/user=owner, whistler.io/managed=true and the
`isolate-user-pods` NetworkPolicy selecting all pods with policyTypes
containing Ingress and an empty ingress list; whenever the gateway
creates an instance for a user, the policy it ensures denies all
ingress. -/
theorem user_isolation_on_create (c : Cluster)
    (username template_name instance_name : String) (preemptible : Bool) :
    (∃ ns ∈ (add_instance c username template_name instance_name preemptible).1.namespaces,
      ns.name = get_user_namespace username) ∧
    ((¬ ∃ ns ∈ c.namespaces, ns.name = get_user_namespace username) →
      ∃ ns ∈ (add_instance c username template_name instance_name preemptible).1.namespaces,
        ns.name = get_user_namespace username ∧
        ns.labels = [("whistler.io/user", username), ("whistler.io/managed", "true")]) ∧
    (∃ p ∈ (add_instance c username template_name instance_name preemptible).1.policies,
      p.namespc = get_user_namespace username ∧ p.name = "isolate-user-pods") ∧
    ((¬ ∃ p ∈ c.policies,
        p.namespc = get_user_namespace username ∧ p.name = "isolate-user-pods") →
      ∃ p ∈ (add_instance c username template_name instance_name preemptible).1.policies,
        p.namespc = get_user_namespace username ∧ p.name = "isolate-user-pods" ∧
        p.podSelector = [] ∧ deniesAllIngress p) ∧
    (add_instance c username template_name instance_name preemptible).2 =
      .createInstanceCR (get_user_namespace username) (username ++ "-" ++ instance_name)
        template_name username preemptible := by
  have hns : (add_instance c username template_name instance_name preemptible).1.namespaces =
      (ensure_ns_step c username).namespaces := by
    unfold add_instance ensure_user_namespace ensure_policy_step
    split
    · rfl
    · rfl
  have hpolbase : (ensure_ns_step c username).policies = c.policies := by
    unfold ensure_ns_step
    split
    · rfl
    · rfl
  have hpol : (add_instance c username template_name instance_name preemptible).1.policies =
      (ensure_policy_step (ensure_ns_step c username) username).policies := rfl
  refine ⟨?_, ?_, ?_, ?_, rfl⟩
  · rw [hns]
    unfold ensure_ns_step
    split
    next hany =>
      obtain ⟨ns, hmem, hname⟩ := List.any_eq_true.mp hany
      exact ⟨ns, hmem, by simpa using hname⟩
    next =>
      exact ⟨userNamespaceBody username, by simp, rfl⟩
  · intro hnone
    rw [hns]
    unfold ensure_ns_step
    split
    next hany =>
      obtain ⟨ns, hmem, hname⟩ := List.any_eq_true.mp hany
      exact absurd ⟨ns, hmem, by simpa using hname⟩ hnone
    next =>
      exact ⟨userNamespaceBody username, by simp, rfl, rfl⟩
  · rw [hpol]
    unfold ensure_policy_step
    split
    next hany =>
      rw [hpolbase] at hany ⊢
      obtain ⟨p, hmem, hp⟩ := List.any_eq_true.mp hany
      obtain ⟨h1, h2⟩ := Bool.and_eq_true .. |>.mp hp
      exact ⟨p, hmem, by simpa using h1, by simpa using h2⟩
    next =>
      exact ⟨isolatePolicyBody username, by simp, rfl, rfl⟩
  · intro hnone
    rw [hpol]
    unfold ensure_policy_step
    split
    next hany =>
      rw [hpolbase] at hany
      obtain ⟨p, hmem, hp⟩ := List.any_eq_true.mp hany
      obtain ⟨h1, h2⟩ := Bool.and_eq_true .. |>.mp hp
      exact absurd ⟨p, hmem, by simpa using h1, by simpa using h2⟩ hnone
    next =>
      refine ⟨isolatePolicyBody username, by simp, rfl, rfl, rfl, ?_⟩
      exact ⟨by simp [isolatePolicyBody], rfl⟩

/-- C2 witness: creating instance dev1 for alice on an empty cluster
ensures the isolate-user-pods policy in whistler-user-alice selecting all
pods and denying all ingress. -/
theorem user_isolation_on_create_witness :
    ((¬ ∃ ns ∈ emptyCluster.namespaces, ns.name = get_user_namespace "alice") ∧
     (¬ ∃ p ∈ emptyCluster.policies,
        p.namespc = get_user_namespace "alice" ∧ p.name = "isolate-user-pods")) ∧
    (∃ p ∈ (add_instance emptyCluster "alice" "alice-small" "dev1" false).1.policies,
      p.namespc = get_user_namespace "alice" ∧ p.name = "isolate-user-pods" ∧
      p.podSelector = [] ∧ deniesAllIngress p) :=
  ⟨⟨by decide, by decide⟩,
   (user_isolation_on_create emptyCluster "alice" "alice-small" "dev1" false).2.2.2.1
     (by decide)⟩

/-- C3 counterexample: the app label of the materialized pod is
whistler-instance, not instance-app as the claim states. -/
theorem pod_app_label_cex :
    assocGet (mk_pod_body "alice" "alice-dev1" false exTemplateSpec
      "whistler-data-alice").labels "app" = some "whistler-instance" ∧
    ¬ assocGet (mk_pod_body "alice" "alice-dev1" false exTemplateSpec
      "whistler-data-alice").labels "app" = some "instance-app" := by
  constructor
  · rfl
  · decide

/-- C3 amended: for an instance CR named owner-shortName the reconciler
materializes a pod whose name is the CR name (the instance fullName, as
written by add_instance), whose labels are app=whistler-instance,
instance=fullName, user=owner, and whose hostname is the short name (the
owner prefix stripped). -/
theorem pod_materialization (owner shortName : String) (preemptible : Bool)
    (tspec : TemplateSpecData) (pvc : String) :
    (mk_pod_body owner (owner ++ "-" ++ shortName) preemptible tspec pvc).name =
      owner ++ "-" ++ shortName ∧
    (mk_pod_body owner (owner ++ "-" ++ shortName) preemptible tspec pvc).labels =
      [("app", "whistler-instance"), ("instance", owner ++ "-" ++ shortName),
       ("user", owner)] ∧
    (mk_pod_body owner (owner ++ "-" ++ shortName) preemptible tspec pvc).hostname =
      shortName ∧
    (∀ c tn, (add_instance c owner tn shortName preemptible).2 =
      .createInstanceCR (get_user_namespace owner) (owner ++ "-" ++ shortName)
        tn owner preemptible) := by
  refine ⟨rfl, rfl, ?_, fun c tn => rfl⟩
  unfold mk_pod_body
  simp only [pyStartsWith_owner_append, if_true]
  exact pyDrop_owner_append owner shortName

/-- C4: evaluating the ephemeral-creation step at a non-PTY template
session shows the divergence: the session is marked ephemeral and the
minted name is targetName plus 8 hex chars as claimed, but the instance is
created with preemptible false because the non-PTY branch omits the
preemptible argument; the PTY branch at the same inputs passes true. -/
theorem ephemeral_nonpty_preemptible_cex :
    create_ephemeral_call "alice" "small" exTemplates 3735928559 false =
      (true, { username := "alice", templateRef := "small",
               instanceName := "small-deadbeef", preemptible := false }) ∧
    (create_ephemeral_call "alice" "small" exTemplates 3735928559 true).2.preemptible =
      true ∧
    token_hex_4 3735928559 = "deadbeef" ∧
    (token_hex_4 3735928559).length = 8 := by
  refine ⟨?_, rfl, ?_, rfl⟩
  · decide
  · decide

/-- The minted hexadecimal suffix always has exactly 8 characters. -/
theorem token_hex_4_length (seed : Nat) : (token_hex_4 seed).length = 8 := by
  unfold token_hex_4
  simp [String.length]

/-- C6: evaluating the reconciler nudge at a concrete connection shows the
divergence: the annotation patch addresses the WhistlerInstance in the
system namespace (whistler, the default), while add_instance places the
instance declaration in the owner namespace whistler-user-alice, so the
patch does not reach the declaration. -/
theorem nudge_patch_wrong_namespace_cex :
    (nudge_patch "whistler" "alice" "dev1" "1700000000.0").namespc = "whistler" ∧
    (nudge_patch "whistler" "alice" "dev1" "1700000000.0").objName = "alice-dev1" ∧
    (nudge_patch "whistler" "alice" "dev1" "1700000000.0").annotationsPatch =
      [("whistler.io/last-connect", "1700000000.0")] ∧
    (add_instance emptyCluster "alice" "alice-small" "dev1" false).2 =
      .createInstanceCR "whistler-user-alice" "alice-dev1" "alice-small" "alice" false ∧
    ("whistler" : String) ≠ "whistler-user-alice" := by
  refine ⟨rfl, rfl, rfl, rfl, ?_⟩
  decide

/-- C3 witness: the concrete pod for alice-dev1 carries hostname dev1 and
the code's label set. -/
theorem pod_materialization_witness :
    (mk_pod_body "alice" ("alice" ++ "-" ++ "dev1") false exTemplateSpec
      "whistler-data-alice").hostname = "dev1" ∧
    (mk_pod_body "alice" ("alice" ++ "-" ++ "dev1") false exTemplateSpec
      "whistler-data-alice").labels =
      [("app", "whistler-instance"), ("instance", "alice" ++ "-" ++ "dev1"),
       ("user", "alice")] :=
  ⟨(pod_materialization "alice" "dev1" false exTemplateSpec "whistler-data-alice").2.2.1,
   (pod_materialization "alice" "dev1" false exTemplateSpec "whistler-data-alice").2.1⟩

/-- C9 witness: a concrete TUI-bound burst of three resize events
triggers at most two applications. -/
theorem resize_coalescing_amended_witness :
    burstApplications .tuiBound [(80, 24), (81, 25), (82, 26)] ≤ 2 ∧
    burstApplications .ptyBound [(80, 24), (81, 25), (82, 26)] = 3 :=
  ⟨(resize_coalescing_amended [(80, 24), (81, 25), (82, 26)]).1,
   (resize_coalescing_amended [(80, 24), (81, 25), (82, 26)]).2⟩
